import Mathlib

/-!
# Verification of the telegram-nitro-bot webhook reconciliation core

A shallow embedding of the bot's webhook-driven purchase/deposit state
machine (src/main.py) and of the standalone web-admin variant
(src/web_admin.py).  Monetary amounts (Python floats) are modelled as `Rat`;
the relational tables are modelled as lists of records; the database session
commits all mutations made so far when a handler returns normally and rolls
the whole request back when an exception escapes the session scope, exactly
as the `session_scope` context manager in the source does.  External
collaborators (the Fernet decryptor, the Telegram send calls, the
NOWPayments invoice and rate-estimate endpoints) are passed in as explicit
parameters, as the spec treats them as opaque collaborator interfaces.
-/

set_option maxRecDepth 4000

namespace NitroBot

/-- A row of the `users` table (src/main.py `User`).  The `username` column
is stored Fernet-encrypted in the source; encryption-at-rest is an opaque
collaborator here, so the stored string is kept abstract. -/
structure UserRec where
  id : Nat
  balance : Rat
  role : String
  username : String
deriving Repr, DecidableEq

/-- A row of the `products` table (src/main.py `Product`).  `filename` holds
the encrypted filename exactly as the column does. -/
structure ProductRec where
  id : Nat
  name : String
  filename : String
  price : Rat
  category : String
  sellerId : Nat
deriving Repr, DecidableEq

/-- A row of the `sales` table (src/main.py `Sale`). -/
structure SaleRec where
  userId : Nat
  productId : Nat
  timestamp : Nat
deriving Repr, DecidableEq

/-- A row of the `deposits` table (src/main.py `Deposit`); `orderId` is the
primary key. -/
structure DepositRec where
  orderId : String
  userId : Nat
  invoiceUrl : String
  status : String
  amount : Rat
  timestamp : Nat
deriving Repr, DecidableEq

/-- A row of the `messages` table (src/main.py `Message`): the inbound-event
log whose `update_id` column carries a UNIQUE constraint. -/
structure MessageRec where
  updateId : String
  userId : Nat
  rawData : String
deriving Repr, DecidableEq

/-- The JSON `data` payload of a pending action: the deposit flow stores
`\x7b"status": "await_amount"\x7d`, the purchase flow stores
`\x7b"product_id": pid\x7d`. -/
structure ActionData where
  status : Option String
  productId : Option Nat
deriving Repr, DecidableEq

/-- A row of the `pending_actions` table (src/main.py `PendingAction`). -/
structure PendingActionRec where
  userId : Nat
  actionType : String
  data : ActionData
deriving Repr, DecidableEq

/-- The bot application's persistent state: the relational tables plus the
`files/` directory (filename paired with encrypted content). -/
structure DB where
  users : List UserRec
  products : List ProductRec
  sales : List SaleRec
  deposits : List DepositRec
  messages : List MessageRec
  pendings : List PendingActionRec
  files : List (String × String)
deriving Repr, DecidableEq

/-- Messages and documents sent back to the chat during one handler run. -/
structure BotOut where
  replies : List String
  docs : List String
deriving Repr, DecidableEq

/-- The row lookup `session.query(User).get(user_id)`. -/
def findUser (db : DB) (uid : Nat) : Option UserRec :=
  db.users.find? (fun u => u.id == uid)

/-- Overwrite the row of the user carrying `u.id` with `u`. -/
def setUser (db : DB) (u : UserRec) : DB :=
  { db with users := db.users.map (fun v => if v.id == u.id then u else v) }

/-- The lazy-creation step shared by `get_balance` and `update_balance`
(src/main.py lines 610-626): fetch the user row, creating it with balance
0.0 and role "user" when absent. -/
def ensureUser (db : DB) (uid : Nat) : UserRec × DB :=
  match findUser db uid with
  | some u => (u, db)
  | none =>
    let u : UserRec := { id := uid, balance := 0, role := "user", username := s!"User_{uid}" }
    (u, { db with users := db.users ++ [u] })

/-- The deletion `session.delete(pending)`: remove the one fetched row. -/
def deletePending (db : DB) (p : PendingActionRec) : DB :=
  { db with pendings := db.pendings.erase p }

/-- src/main.py `update_balance` (lines 621-634): lazily create the user,
compute the new balance, and raise `ValueError("Balance cannot be
negative")` — leaving the session to roll back — when it would drop below
zero. -/
def update_balance (db : DB) (uid : Nat) (amount : Rat) : Except String DB :=
  let user := (ensureUser db uid).1
  let db1 := (ensureUser db uid).2
  let newBalance := user.balance + amount
  if newBalance < 0 then Except.error "Balance cannot be negative"
  else Except.ok (setUser db1 { user with balance := newBalance })

/-- src/main.py `get_balance` (lines 610-619): the balance of the (lazily
created) user row. -/
def get_balance (db : DB) (uid : Nat) : Rat × DB :=
  ((ensureUser db uid).1.balance, (ensureUser db uid).2)

/-- Outcomes of the external delivery collaborators used by the purchase
confirmation branch: `decName` models `decrypt_data` on the stored filename
(`none` = falsy result), `decContent` models `decrypt_file_content`,
`sendOk` models whether `send_document` returns or raises, `removeOk`
whether `os.remove` succeeds (its failure is caught and ignored). -/
structure DeliveryEnv where
  decName : String → Option String
  decContent : String → Option String
  sendOk : Bool
  removeOk : Bool

/-- The `buy_<pid>` branch of `handle_callback` (src/main.py lines
476-494): fetch the balance (lazily creating the user), look the product
up, and on success record a purchase-confirmation pending action and ask
for confirmation. -/
def handleBuy (db : DB) (chatId : Nat) (pid : Nat) : DB × BotOut :=
  let bal := (get_balance db chatId).1
  let db1 := (get_balance db chatId).2
  match db1.products.find? (fun p => p.id == pid) with
  | none => (db1, ⟨["Product not found."], []⟩)
  | some product =>
    if bal < product.price then (db1, ⟨["Insufficient balance."], []⟩)
    else
      let db2 := { db1 with pendings := db1.pendings ++ [⟨chatId, "purchase", ⟨none, some pid⟩⟩] }
      (db2, ⟨[s!"Confirm purchase of {product.name}?"], []⟩)

/-- The `confirm_<pid>` branch of `handle_callback` (src/main.py lines
495-553).  The branch body past the balance check runs inside a
`try/except` whose handler replies "Purchase failed", deletes the pending
row and lets the session commit; consequently every mutation made before a
raised delivery failure (the debit and the Sale insert) is persisted, and
only the steps after the failure point are skipped. -/
def handleConfirm (env : DeliveryEnv) (db : DB) (chatId : Nat) (pid : Nat) (ts : Nat) : DB × BotOut :=
  match db.pendings.find? (fun p => p.userId == chatId && p.actionType == "purchase") with
  | none => (db, ⟨["Invalid purchase confirmation."], []⟩)
  | some pending =>
    if pending.data.productId != some pid then
      (db, ⟨["Invalid purchase confirmation."], []⟩)
    else
      let bal := (get_balance db chatId).1
      let db1 := (get_balance db chatId).2
      match db1.products.find? (fun p => p.id == pid) with
      | none => (deletePending db1 pending, ⟨["Product not found."], []⟩)
      | some product =>
        if bal < product.price then
          (deletePending db1 pending, ⟨["Insufficient balance."], []⟩)
        else
          match update_balance db1 chatId (-product.price) with
          | Except.error _ =>
            (deletePending db1 pending, ⟨["Purchase failed. Please try again or contact @goatflow517."], []⟩)
          | Except.ok db2 =>
            let db3 := { db2 with sales := db2.sales ++ [⟨chatId, pid, ts⟩] }
            match env.decName product.filename with
            | none =>
              (deletePending db3 pending, ⟨["Failed to decrypt filename. Please contact @goatflow517."], []⟩)
            | some fname =>
              match db3.files.find? (fun f => f.1 == fname) with
              | none =>
                (deletePending db3 pending, ⟨["File not found. Please contact @goatflow517."], []⟩)
              | some file =>
                match env.decContent file.2 with
                | none =>
                  (deletePending db3 pending, ⟨["Failed to decrypt file. Please contact @goatflow517."], []⟩)
                | some _ =>
                  if !env.sendOk then
                    (deletePending db3 pending, ⟨["Purchase failed. Please try again or contact @goatflow517."], []⟩)
                  else
                    let db4 := if env.removeOk then { db3 with files := db3.files.filter (fun f => f.1 != fname) } else db3
                    let db5 := { db4 with products := db4.products.filter (fun p => p.id != pid) }
                    let db6 := deletePending db5 pending
                    (db6, ⟨[s!"You bought {product.name}!"], [fname]⟩)

/-- The `cancel_purchase` branch of `handle_callback` (src/main.py lines
554-558). -/
def handleCancel (db : DB) (chatId : Nat) : DB × BotOut :=
  match db.pendings.find? (fun p => p.userId == chatId && p.actionType == "purchase") with
  | none => (db, ⟨["Purchase cancelled."], []⟩)
  | some pending => (deletePending db pending, ⟨["Purchase cancelled."], []⟩)

/-- src/main.py `handle_message` (lines 560-591), the awaiting-deposit
flow.  `amt?` is the outcome of `float(text)` (`none` = ValueError) and
`invoice` the `invoice_url` returned by the external `create_invoice`
collaborator (`none` = no URL, including the collaborator's own caught
exceptions).  The order id is `f"\x7bchat_id\x7d_\x7btimestamp\x7d"`. -/
def handle_message (invoice : Option String) (db : DB) (chatId : Nat) (amt? : Option Rat) (ts : Nat) : DB × BotOut :=
  match db.pendings.find? (fun p => p.userId == chatId && p.actionType == "deposit") with
  | some pending =>
    if pending.data.status == some "await_amount" then
      match amt? with
      | none => (db, ⟨["Please enter a valid number."], []⟩)
      | some usd =>
        if usd < 25 then
          (deletePending db pending,
           ⟨["Manual deposits are required for BTC load ups UNDER $25. Please contact @goatflow517."], []⟩)
        else
          let orderId := s!"{chatId}_{ts}"
          match invoice with
          | some inv =>
            let db1 := { db with deposits := db.deposits ++ [⟨orderId, chatId, inv, "pending", 0, ts⟩] }
            (deletePending db1 pending, ⟨[s!"Complete payment here: {inv}"], []⟩)
          | none =>
            (deletePending db pending,
             ⟨["Failed to create invoice. Please try again or contact @goatflow517."], []⟩)
    else (db, ⟨["Sorry, I did not understand that command. Use /start to begin."], []⟩)
  | none => (db, ⟨["Sorry, I did not understand that command. Use /start to begin."], []⟩)

/-- The JSON body of a NOWPayments IPN post, as read by the payment
webhook: `payment_status`, `order_id`, and the paid amount. -/
structure IpnData where
  paymentStatus : Option String
  orderId : Option String
  payAmount : Rat
deriving Repr, DecidableEq

/-- The order-id parse `int(str(data.get("order_id")).split("_")[0])`
(src/main.py line 736): the numeric string before the first underscore, or
failure (a raised ValueError) when it is not numeric. -/
def parseUserId (orderId : String) : Option Nat :=
  ((orderId.splitOn "_").headD "").toNat?

/-- src/main.py `payment_webhook` (lines 724-756).  `credits` is the
`estimated_amount` returned by the external rate-estimation collaborator
and `sendOk` whether the Telegram notification call returns.  The whole
credit-and-update block runs inside `session_scope`, so any raised
exception (a malformed order id, a refused balance update, a failed
notification) rolls every mutation back and the route answers 500.  The
result is the HTTP status code paired with the committed state.  Note that
the handler reads only the JSON body: it never inspects authentication
headers, and it credits the balance before — and regardless of — the
Deposit lookup. -/
def payment_webhook (credits : Rat) (sendOk : Bool) (db : DB) (data? : Option IpnData) : Nat × DB :=
  match data? with
  | none => (400, db)
  | some data =>
    match data.paymentStatus with
    | none => (400, db)
    | some st =>
      if st == "confirmed" || st == "partially_paid" then
        match parseUserId (data.orderId.getD "None") with
        | none => (500, db)
        | some uid =>
          match update_balance db uid credits with
          | Except.error _ => (500, db)
          | Except.ok db1 =>
            if sendOk then
              (200, { db1 with deposits := db1.deposits.map (fun d =>
                  if d.orderId == data.orderId.getD "None" then
                    { d with status := "completed", amount := credits }
                  else d) })
            else (500, db)
      else (400, db)

/-- The payment IPN route as served: the request's secret token (header or
query parameter) is available to the handler, but src/main.py lines
724-730 read only the JSON body, so the `cfgSecret`/`reqSecret` arguments
are never consulted. -/
def paymentRoute (credits : Rat) (sendOk : Bool) (_cfgSecret : String) (_reqSecret : Option String)
    (db : DB) (data? : Option IpnData) : Nat × DB :=
  payment_webhook credits sendOk db data?

/-- A parsed Telegram update as the webhook reads it: the update id
(`str(data.get("update_id", ""))`), and the sender id and username drawn
from the `message` or `callback_query` member. -/
structure TgUpdate where
  updateId : String
  fromId : Option Nat
  username : String
deriving Repr, DecidableEq

/-- src/main.py `telegram_webhook` (lines 680-722).  Checks the
`X-Telegram-Bot-Api-Secret-Token` header against `WEBHOOK_SECRET` and
answers 403 on mismatch; rejects an absent or unparseable body with 400;
then, in one session, upserts the sender's user row and inserts a
`Message` row keyed by the update id.  The UNIQUE constraint on
`update_id` makes the commit of a duplicate insert raise IntegrityError:
`session_scope` rolls the whole session back, the route's `except` answers
500, and `process_update` (the dispatch that produces every user-visible
action) is never reached.  The third component records whether
`process_update` ran. -/
def telegram_webhook (cfgSecret : String) (db : DB) (reqSecret : Option String)
    (upd? : Option TgUpdate) : Nat × DB × Bool :=
  if reqSecret != some cfgSecret then (403, db, false)
  else
    match upd? with
    | none => (400, db, false)
    | some upd =>
      match upd.fromId with
      | none => (200, db, true)
      | some uid =>
        if db.messages.any (fun m => m.updateId == upd.updateId) then (500, db, false)
        else
          match findUser db uid with
          | some u =>
            (200, { setUser db { u with username := upd.username } with
                messages := db.messages ++ [⟨upd.updateId, uid, "raw"⟩] }, true)
          | none =>
            (200, { db with
                users := db.users ++ [{ id := uid, balance := 0, role := "user", username := upd.username }],
                messages := db.messages ++ [⟨upd.updateId, uid, "raw"⟩] }, true)

/-- The POST branch of the admin panel's manual deposit view
(src/main.py `UserAdmin.deposit_view`, lines 243-298), restricted to the
ledger-touching part (the batch-price setting does not touch balances and
is omitted).  A non-positive user id or amount is refused with an error
message and no mutation; otherwise the user row is fetched or created and
its balance incremented by direct field assignment (`user.balance += amt`),
and a completed manual Deposit row is recorded.  Returns the state and the
error flag. -/
def adminDeposit (db : DB) (uid : Int) (amt : Rat) (ts : Nat) : DB × Bool :=
  if uid ≤ 0 then (db, true)
  else if amt ≤ 0 then (db, true)
  else
    let uidN := uid.toNat
    let user := (ensureUser db uidN).1
    let db1 := (ensureUser db uidN).2
    let db2 := setUser db1 { user with balance := user.balance + amt }
    let db3 := { db2 with deposits := db2.deposits ++
      [⟨s!"manual_{uidN}_{ts}", uidN, "manual_deposit", "completed", amt, ts⟩] }
    (db3, false)

/-- The web-admin variant's own user table (src/web_admin.py `User`; a
separate Flask app over the same database URL). -/
structure WebAdminDB where
  users : List UserRec
deriving Repr, DecidableEq

/-- src/web_admin.py `AddCreditsView.index` (lines 153-168), POST branch:
look the user up and, when found, add the posted amount to the balance by
direct field assignment — the amount is parsed with `float(...)` and never
sign-checked. -/
def addCredits (db : WebAdminDB) (uid : Nat) (amount : Rat) : WebAdminDB :=
  match db.users.find? (fun u => u.id == uid) with
  | some _ =>
    let upd := fun (v : UserRec) =>
      if v.id == uid then { v with balance := v.balance + amount } else v
    { db with users := db.users.map upd }
  | none => db

/-- The balance invariant of spec section 3: every user row carries a
non-negative balance. -/
def balancesNonneg (db : DB) : Prop :=
  ∀ u ∈ db.users, 0 ≤ u.balance

instance (db : DB) : Decidable (balancesNonneg db) :=
  inferInstanceAs (Decidable (∀ u ∈ db.users, 0 ≤ u.balance))

/-- The empty database. -/
def dbEmpty : DB :=
  { users := [], products := [], sales := [], deposits := []
  , messages := [], pendings := [], files := [] }

/-- A Telegram update: update id "111" from user 9. -/
def updAlice : TgUpdate :=
  { updateId := "111", fromId := some 9, username := "alice" }

/-- A state whose inbound-event log already records update id "111". -/
def dbSeenUpdate : DB :=
  { dbEmpty with users := [⟨9, 0, "user", "alice"⟩], messages := [⟨"111", 9, "raw"⟩] }

/-- A state with a single zero-balance user 3. -/
def dbUserThree : DB :=
  { dbEmpty with users := [⟨3, 0, "user", "u3"⟩] }

/-- A `confirmed` IPN for order "3_1" (user 3). -/
def ipnUserThree : IpnData :=
  { paymentStatus := some "confirmed", orderId := some "3_1", payAmount := 0 }

/-- A one-user, one-completed-deposit state: user 7 holds 60 credits and
the Deposit for order "7_100" has already reached status `completed` with
amount 60. -/
def dbCompletedDeposit : DB :=
  { users := [⟨7, 60, "user", "u7"⟩]
  , products := []
  , sales := []
  , deposits := [⟨"7_100", 7, "url", "completed", 60, 100⟩]
  , messages := []
  , pendings := []
  , files := [] }

/-- A state ready for a purchase confirmation: user 1 holds 100 credits,
product 5 costs 40 and its encrypted file is on disk, and user 1 has a
pending purchase-confirmation action for product 5. -/
def dbReadyPurchase : DB :=
  { users := [⟨1, 100, "user", "u1"⟩]
  , products := [⟨5, "Fullz_1", "enc5", 40, "Fullz", 999⟩]
  , sales := []
  , deposits := []
  , messages := []
  , pendings := [⟨1, "purchase", ⟨none, some 5⟩⟩]
  , files := [("fullz_1.txt", "blob")] }

/-- A delivery environment over `dbReadyPurchase` in which decryption of
the filename and of the content succeed but `send_document` (file
transmission) raises. -/
def envSendFails : DeliveryEnv :=
  { decName := fun s => if s == "enc5" then some "fullz_1.txt" else none
  , decContent := fun _ => some "plain"
  , sendOk := false
  , removeOk := true }

/-- A delivery environment over `dbReadyPurchase` in which every external
delivery step succeeds. -/
def envAllOk : DeliveryEnv :=
  { decName := fun s => if s == "enc5" then some "fullz_1.txt" else none
  , decContent := fun _ => some "plain"
  , sendOk := true
  , removeOk := true }

/-- A state in which user 1 awaits confirmation for product 8 while
product 5 also exists. -/
def dbPendingOther : DB :=
  { dbEmpty with
    users := [⟨1, 100, "user", "u1"⟩]
  , products := [⟨5, "Fullz_1", "enc5", 40, "Fullz", 999⟩, ⟨8, "Fullz_2", "enc8", 40, "Fullz", 999⟩]
  , pendings := [⟨1, "purchase", ⟨none, some 8⟩⟩] }

/-- A state in which user 2 is awaiting a deposit amount. -/
def dbAwaitAmount : DB :=
  { dbEmpty with
    users := [⟨2, 0, "user", "u2"⟩]
  , pendings := [⟨2, "deposit", ⟨some "await_amount", none⟩⟩] }

/-- The spec's scenario IPN: a `confirmed` callback for order
"42_1700000000" (user 42). -/
def ipn42 : IpnData :=
  { paymentStatus := some "confirmed", orderId := some "42_1700000000", payAmount := 0 }

/-- A web-admin state with one user holding 10 credits. -/
def webDbUserFive : WebAdminDB :=
  { users := [⟨5, 10, "user", "u5"⟩] }

/-! Helper lemmas about the row-level operations. -/

theorem ensureUser_id (db : DB) (uid : Nat) : (ensureUser db uid).1.id = uid := by
  unfold ensureUser
  cases h : findUser db uid with
  | none => rfl
  | some u =>
    unfold findUser at h
    have := List.find?_some h
    simpa using this

theorem ensureUser_mem (db : DB) (uid : Nat) :
    (ensureUser db uid).1 ∈ (ensureUser db uid).2.users := by
  unfold ensureUser
  cases h : findUser db uid with
  | some u =>
    unfold findUser at h
    exact List.mem_of_find?_eq_some h
  | none => simp

@[simp] theorem ensureUser_products (db : DB) (uid : Nat) :
    (ensureUser db uid).2.products = db.products := by
  unfold ensureUser; cases findUser db uid <;> rfl

@[simp] theorem ensureUser_sales (db : DB) (uid : Nat) :
    (ensureUser db uid).2.sales = db.sales := by
  unfold ensureUser; cases findUser db uid <;> rfl

@[simp] theorem ensureUser_deposits (db : DB) (uid : Nat) :
    (ensureUser db uid).2.deposits = db.deposits := by
  unfold ensureUser; cases findUser db uid <;> rfl

@[simp] theorem ensureUser_messages (db : DB) (uid : Nat) :
    (ensureUser db uid).2.messages = db.messages := by
  unfold ensureUser; cases findUser db uid <;> rfl

@[simp] theorem ensureUser_pendings (db : DB) (uid : Nat) :
    (ensureUser db uid).2.pendings = db.pendings := by
  unfold ensureUser; cases findUser db uid <;> rfl

@[simp] theorem ensureUser_files (db : DB) (uid : Nat) :
    (ensureUser db uid).2.files = db.files := by
  unfold ensureUser; cases findUser db uid <;> rfl

@[simp] theorem setUser_products (db : DB) (u : UserRec) :
    (setUser db u).products = db.products := rfl

@[simp] theorem setUser_sales (db : DB) (u : UserRec) :
    (setUser db u).sales = db.sales := rfl

@[simp] theorem setUser_deposits (db : DB) (u : UserRec) :
    (setUser db u).deposits = db.deposits := rfl

@[simp] theorem setUser_messages (db : DB) (u : UserRec) :
    (setUser db u).messages = db.messages := rfl

@[simp] theorem setUser_pendings (db : DB) (u : UserRec) :
    (setUser db u).pendings = db.pendings := rfl

@[simp] theorem setUser_files (db : DB) (u : UserRec) :
    (setUser db u).files = db.files := rfl

@[simp] theorem deletePending_users (db : DB) (p : PendingActionRec) :
    (deletePending db p).users = db.users := rfl

@[simp] theorem deletePending_products (db : DB) (p : PendingActionRec) :
    (deletePending db p).products = db.products := rfl

@[simp] theorem deletePending_sales (db : DB) (p : PendingActionRec) :
    (deletePending db p).sales = db.sales := rfl

@[simp] theorem deletePending_deposits (db : DB) (p : PendingActionRec) :
    (deletePending db p).deposits = db.deposits := rfl

@[simp] theorem deletePending_files (db : DB) (p : PendingActionRec) :
    (deletePending db p).files = db.files := rfl

theorem findUser_ensureUser (db : DB) (uid : Nat) :
    findUser (ensureUser db uid).2 uid = some (ensureUser db uid).1 := by
  unfold ensureUser
  cases h : findUser db uid with
  | some u => exact h
  | none =>
    unfold findUser at h ⊢
    rw [List.find?_append, h]
    simp

theorem ensureUser_of_found (db : DB) (uid : Nat) (u : UserRec)
    (h : findUser db uid = some u) : ensureUser db uid = (u, db) := by
  unfold ensureUser
  rw [h]

theorem ensureUser_idem (db : DB) (uid : Nat) :
    ensureUser (ensureUser db uid).2 uid = ensureUser db uid := by
  rw [ensureUser_of_found _ _ _ (findUser_ensureUser db uid)]

theorem find?_filter_ne_none {α β : Type} [BEq β] [LawfulBEq β] (l : List α) (f : α → β) (k : β) :
    (l.filter (fun x => f x != k)).find? (fun x => f x == k) = none := by
  rw [List.find?_eq_none]
  intro x hx
  have := List.of_mem_filter hx
  simp at this
  simpa using this

theorem find?_map_set (l : List UserRec) (u : UserRec) (uid : Nat) (hid : u.id = uid)
    (hmem : ∃ v ∈ l, v.id = uid) :
    (l.map (fun v => if v.id == u.id then u else v)).find? (fun v => v.id == uid) = some u := by
  subst hid
  induction l with
  | nil => simp at hmem
  | cons w l ih =>
    by_cases hw : w.id = u.id
    · simp [hw]
    · have hmem' : ∃ v ∈ l, v.id = u.id := by
        rcases hmem with ⟨v, hv, hvid⟩
        rcases List.mem_cons.mp hv with rfl | h
        · exact absurd hvid hw
        · exact ⟨v, h, hvid⟩
      simpa [hw] using ih hmem'

theorem update_balance_ok (db : DB) (uid : Nat) (amt : Rat)
    (h : 0 ≤ (ensureUser db uid).1.balance + amt) :
    update_balance db uid amt
      = Except.ok (setUser (ensureUser db uid).2
          { (ensureUser db uid).1 with balance := (ensureUser db uid).1.balance + amt }) := by
  unfold update_balance
  rw [if_neg (not_lt.mpr h)]

theorem findUser_setUser_self (db : DB) (u : UserRec) (uid : Nat) (hid : u.id = uid)
    (hmem : ∃ v ∈ db.users, v.id = uid) :
    findUser (setUser db u) uid = some u :=
  find?_map_set db.users u uid hid hmem

theorem deposits_map_noop (l : List DepositRec) (oid : String) (credits : Rat)
    (h : ∀ d ∈ l, d.orderId ≠ oid) :
    l.map (fun d => if d.orderId == oid then { d with status := "completed", amount := credits } else d)
      = l := by
  induction l with
  | nil => rfl
  | cons d l ih =>
    have hd : (d.orderId == oid) = false :=
      beq_eq_false_iff_ne.mpr (h d (List.mem_cons_self d l))
    simp only [List.map_cons, hd, Bool.false_eq_true, if_false,
      ih (fun x hx => h x (List.mem_cons_of_mem d hx))]

theorem balancesNonneg_ensureUser (db : DB) (uid : Nat) (h : balancesNonneg db) :
    balancesNonneg (ensureUser db uid).2 := by
  unfold ensureUser
  cases hf : findUser db uid with
  | some u => exact h
  | none =>
    intro v hv
    rcases List.mem_append.mp hv with hv | hv
    · exact h v hv
    · simp at hv
      subst hv
      exact le_refl 0

theorem ensureUser_balance_nonneg (db : DB) (uid : Nat) (h : balancesNonneg db) :
    0 ≤ (ensureUser db uid).1.balance := by
  unfold ensureUser
  cases hf : findUser db uid with
  | some u =>
    unfold findUser at hf
    exact h u (List.mem_of_find?_eq_some hf)
  | none => exact le_refl 0

theorem balancesNonneg_setUser (db : DB) (u : UserRec) (h : balancesNonneg db)
    (hu : 0 ≤ u.balance) : balancesNonneg (setUser db u) := by
  intro v hv
  unfold setUser at hv
  rcases List.mem_map.mp hv with ⟨w, hw, hweq⟩
  by_cases hid : w.id = u.id
  · simp only [hid, beq_self_eq_true, if_true] at hweq
    subst hweq
    exact hu
  · have : (w.id == u.id) = false := beq_eq_false_iff_ne.mpr hid
    rw [this] at hweq
    simp at hweq
    subst hweq
    exact h w hw

theorem balancesNonneg_update_balance (db : DB) (uid : Nat) (amt : Rat) (db' : DB)
    (hok : update_balance db uid amt = Except.ok db') (h : balancesNonneg db) :
    balancesNonneg db' := by
  unfold update_balance at hok
  by_cases hc : (ensureUser db uid).1.balance + amt < 0
  · rw [if_pos hc] at hok
    cases hok
  · rw [if_neg hc] at hok
    cases hok
    exact balancesNonneg_setUser _ _ (balancesNonneg_ensureUser db uid h) (not_lt.mp hc)

theorem balancesNonneg_payment (credits : Rat) (sendOk : Bool) (db : DB)
    (data? : Option IpnData) (h : balancesNonneg db) :
    balancesNonneg (payment_webhook credits sendOk db data?).2 := by
  unfold payment_webhook
  split
  · exact h
  split
  · exact h
  split
  · split
    · exact h
    · split
      · exact h
      next db1 hub =>
        split
        · intro v hv
          exact balancesNonneg_update_balance _ _ _ db1 hub h v hv
        · exact h
  · exact h

theorem balancesNonneg_handleBuy (db : DB) (chatId pid : Nat) (h : balancesNonneg db) :
    balancesNonneg (handleBuy db chatId pid).1 := by
  unfold handleBuy
  have h2 := balancesNonneg_ensureUser db chatId h
  simp only [get_balance]
  split
  · exact h2
  · split
    · exact h2
    · intro v hv
      exact h2 v hv

theorem balancesNonneg_handleConfirm (env : DeliveryEnv) (db : DB) (chatId pid ts : Nat)
    (h : balancesNonneg db) : balancesNonneg (handleConfirm env db chatId pid ts).1 := by
  unfold handleConfirm
  have h2 := balancesNonneg_ensureUser db chatId h
  simp only [get_balance]
  split
  · exact h
  · split
    · exact h
    · split
      · intro v hv; exact h2 v hv
      · split
        · intro v hv; exact h2 v hv
        · split
          · intro v hv; exact h2 v hv
          next db2 hub =>
            have h3 : balancesNonneg db2 :=
              balancesNonneg_update_balance _ chatId _ db2 hub h2
            split
            · intro v hv; exact h3 v hv
            · split
              · intro v hv; exact h3 v hv
              · split
                · intro v hv; exact h3 v hv
                · split
                  · intro v hv; exact h3 v hv
                  · split <;> intro v hv <;> exact h3 v hv

theorem balancesNonneg_handle_message (invoice : Option String) (db : DB) (chatId : Nat)
    (amt? : Option Rat) (ts : Nat) (h : balancesNonneg db) :
    balancesNonneg (handle_message invoice db chatId amt? ts).1 := by
  unfold handle_message
  split
  · split
    · split
      · exact h
      · split
        · intro v hv; exact h v hv
        · split <;> intro v hv <;> exact h v hv
    · exact h
  · exact h

theorem balancesNonneg_telegram (cfg : String) (db : DB) (req : Option String)
    (upd? : Option TgUpdate) (h : balancesNonneg db) :
    balancesNonneg (telegram_webhook cfg db req upd?).2.1 := by
  unfold telegram_webhook
  split
  · exact h
  split
  · exact h
  next upd =>
    split
    · exact h
    next uid =>
      split
      · exact h
      split
      · next u hf =>
        intro v hv
        have hu : 0 ≤ u.balance := by
          unfold findUser at hf
          exact h u (List.mem_of_find?_eq_some hf)
        exact balancesNonneg_setUser db { u with username := upd.username } h hu v hv
      · intro v hv
        rcases List.mem_append.mp hv with hv | hv
        · exact h v hv
        · simp at hv
          subst hv
          exact le_refl 0

theorem balancesNonneg_adminDeposit (db : DB) (uid : Int) (amt : Rat) (ts : Nat)
    (h : balancesNonneg db) : balancesNonneg (adminDeposit db uid amt ts).1 := by
  unfold adminDeposit
  split
  · exact h
  · split
    · exact h
    next hamt =>
      intro v hv
      refine balancesNonneg_setUser _ _ (balancesNonneg_ensureUser db uid.toNat h) ?_ v hv
      exact add_nonneg (ensureUser_balance_nonneg db uid.toNat h) (le_of_lt (lt_of_not_le hamt))

/-- C1: the claim says the payment webhook looks the Deposit up by order id
and credits the user only if its status is still `pending`, so that an IPN
redelivered for an already-completed Deposit credits zero additional times.
The code credits unconditionally before the Deposit lookup: redelivering a
`confirmed` IPN for order "7_100", whose Deposit is already `completed`,
raises user 7's balance from 60 to 120. -/
theorem c1_ipn_redelivery_credits_completed_deposit :
    (dbCompletedDeposit.deposits.find? (fun d => d.orderId == "7_100")).map DepositRec.status
      = some "completed" ∧
    (payment_webhook 60 true dbCompletedDeposit
        (some { paymentStatus := some "confirmed", orderId := some "7_100", payAmount := 0 })).1
      = 200 ∧
    (findUser (payment_webhook 60 true dbCompletedDeposit
        (some { paymentStatus := some "confirmed", orderId := some "7_100", payAmount := 0 })).2 7).map
      UserRec.balance = some 120 := by
  with_unfolding_all decide

/-- C2: the claim says a decryption or transmission failure after the
debit rolls back the debit and the inventory consumption, leaving the
balance at its pre-purchase value and no Sale row.  In the code the
`except` handler only deletes the pending action and lets the session
commit: after `send_document` raises, user 1's balance stays debited at
60 (not restored to 100), the Sale row is persisted, no document was
delivered, and the product remains in inventory. -/
theorem c2_failed_delivery_keeps_debit :
    (findUser (handleConfirm envSendFails dbReadyPurchase 1 5 77).1 1).map UserRec.balance
      = some 60 ∧
    (handleConfirm envSendFails dbReadyPurchase 1 5 77).1.sales = [⟨1, 5, 77⟩] ∧
    (handleConfirm envSendFails dbReadyPurchase 1 5 77).2.docs = [] ∧
    ((handleConfirm envSendFails dbReadyPurchase 1 5 77).1.products.find?
      (fun p => p.id == 5)).isSome = true := by
  with_unfolding_all decide

/-- C3, counterexample: the claim says a redelivered update id is a silent
no-op, treated as already handled and not as an error.  Starting from the
empty state, the first delivery of update "111" is answered 200, but the
second delivery of the very same update is answered with the server-error
status 500: the duplicate insert surfaces as an IntegrityError, not a
silent no-op. -/
theorem c3_duplicate_update_is_error :
    (telegram_webhook "s" dbEmpty (some "s") (some updAlice)).1 = 200 ∧
    (telegram_webhook "s" (telegram_webhook "s" dbEmpty (some "s") (some updAlice)).2.1
      (some "s") (some updAlice)).1 = 500 := by
  with_unfolding_all decide

/-- C3, amended: redelivering an update id that the inbound-event log
already contains repeats no state mutation and no user-visible action —
the duplicate insert aborts the session before `process_update` runs — but
it is not swallowed silently: the handler answers HTTP 500, an error,
rather than the 200 of a handled request. -/
theorem c3_duplicate_update_no_repeated_effects (cfg : String) (db : DB) (upd : TgUpdate)
    (uid : Nat) (h1 : upd.fromId = some uid)
    (h2 : db.messages.any (fun m => m.updateId == upd.updateId) = true) :
    telegram_webhook cfg db (some cfg) (some upd) = (500, db, false) := by
  unfold telegram_webhook
  simp [h1, h2]

/-- Witness for C3's amended theorem at a concrete duplicate delivery. -/
theorem c3_duplicate_update_no_repeated_effects_witness :
    telegram_webhook "s" dbSeenUpdate (some "s") (some updAlice) = (500, dbSeenUpdate, false) :=
  c3_duplicate_update_no_repeated_effects "s" dbSeenUpdate updAlice 9 (by rfl)
    (by with_unfolding_all decide)

/-- C4, counterexample: the claim says every inbound request, payment IPN
posts included, is rejected with 403 before any processing when its secret
does not match.  A payment IPN request carrying no secret at all (against
configured secret "secret") is fully processed: the route answers 200, not
403, and user 3's balance is credited. -/
theorem c4_payment_ipn_processed_without_secret :
    (paymentRoute 5 true "secret" none dbUserThree (some ipnUserThree)).1 = 200 ∧
    (paymentRoute 5 true "secret" none dbUserThree (some ipnUserThree)).1 ≠ 403 ∧
    (findUser (paymentRoute 5 true "secret" none dbUserThree (some ipnUserThree)).2 3).map
      UserRec.balance = some 5 := by
  with_unfolding_all decide

/-- C4, amended: only Telegram update deliveries are authenticated by the
shared secret: a Telegram webhook request whose secret token does not
match the configured value is rejected with 403 before any processing or
state mutation, while the payment IPN endpoint performs no secret check. -/
theorem c4_telegram_bad_secret_rejected (cfg : String) (db : DB) (req : Option String)
    (upd? : Option TgUpdate) (h : req ≠ some cfg) :
    telegram_webhook cfg db req upd? = (403, db, false) := by
  unfold telegram_webhook
  simp [bne_iff_ne, h]

/-- Witness for C4's amended theorem at a concrete mismatched secret. -/
theorem c4_telegram_bad_secret_rejected_witness :
    telegram_webhook "s" dbEmpty (some "wrong") (some updAlice) = (403, dbEmpty, false) :=
  c4_telegram_bad_secret_rejected "s" dbEmpty (some "wrong") (some updAlice) (by decide)

/-- C6: when the pending purchase action stored for the user names a
product other than the one the confirmation callback carries, the handler
only reports an invalid confirmation: the returned state is the input
state unchanged — no balance, Sale, Product or PendingAction mutation —
and no document is sent. -/
theorem c6_wrong_product_confirmation_no_effect (env : DeliveryEnv) (db : DB)
    (chatId pidA ts : Nat) (pending : PendingActionRec)
    (hfind : db.pendings.find? (fun p => p.userId == chatId && p.actionType == "purchase")
      = some pending)
    (hne : pending.data.productId ≠ some pidA) :
    handleConfirm env db chatId pidA ts = (db, ⟨["Invalid purchase confirmation."], []⟩) := by
  unfold handleConfirm
  rw [hfind]
  simp [bne_iff_ne, hne]

/-- Witness for C6 at a concrete mismatched confirmation. -/
theorem c6_wrong_product_confirmation_no_effect_witness :
    handleConfirm envSendFails dbPendingOther 1 5 77
      = (dbPendingOther, ⟨["Invalid purchase confirmation."], []⟩) :=
  c6_wrong_product_confirmation_no_effect envSendFails dbPendingOther 1 5 77
    ⟨1, "purchase", ⟨none, some 8⟩⟩ (by with_unfolding_all decide) (by decide)

/-- C7: a numeric amount below the 25-credit minimum entered while in the
awaiting-deposit-amount state yields exactly the rejection reply and the
deletion of the pending deposit action: the Deposit table and the user
table (hence every balance) of the resulting state are untouched. -/
theorem c7_below_minimum_no_deposit (invoice : Option String) (db : DB) (chatId ts : Nat)
    (usd : Rat) (pending : PendingActionRec)
    (hfind : db.pendings.find? (fun p => p.userId == chatId && p.actionType == "deposit")
      = some pending)
    (hstat : pending.data.status = some "await_amount")
    (hmin : usd < 25) :
    handle_message invoice db chatId (some usd) ts
      = (deletePending db pending,
         ⟨["Manual deposits are required for BTC load ups UNDER $25. Please contact @goatflow517."], []⟩) ∧
    (deletePending db pending).deposits = db.deposits ∧
    (deletePending db pending).users = db.users := by
  refine ⟨?_, rfl, rfl⟩
  unfold handle_message
  rw [hfind]
  simp [hstat, hmin]

/-- Witness for C7 at the concrete amount 10 (below the minimum 25). -/
theorem c7_below_minimum_no_deposit_witness :
    handle_message (some "http-inv") dbAwaitAmount 2 (some 10) 50
      = (deletePending dbAwaitAmount ⟨2, "deposit", ⟨some "await_amount", none⟩⟩,
         ⟨["Manual deposits are required for BTC load ups UNDER $25. Please contact @goatflow517."], []⟩) :=
  (c7_below_minimum_no_deposit (some "http-inv") dbAwaitAmount 2 50 10
    ⟨2, "deposit", ⟨some "await_amount", none⟩⟩
    (by with_unfolding_all decide) (by decide) (by decide)).1

/-- C10: when the external invoice-creation collaborator yields no invoice
URL for an amount at or above the minimum, the handler still deletes the
pending deposit action (the conversation returns to idle), creates no
Deposit row and touches no balance: the result is exactly the failure
reply plus the pending-action deletion. -/
theorem c10_invoice_failure_still_resets (db : DB) (chatId ts : Nat)
    (usd : Rat) (pending : PendingActionRec)
    (hfind : db.pendings.find? (fun p => p.userId == chatId && p.actionType == "deposit")
      = some pending)
    (hstat : pending.data.status = some "await_amount")
    (hmin : ¬ usd < 25) :
    handle_message none db chatId (some usd) ts
      = (deletePending db pending,
         ⟨["Failed to create invoice. Please try again or contact @goatflow517."], []⟩) ∧
    (deletePending db pending).deposits = db.deposits ∧
    (deletePending db pending).users = db.users := by
  refine ⟨?_, rfl, rfl⟩
  unfold handle_message
  rw [hfind]
  simp [hstat, hmin]

/-- Witness for C10 at the concrete amount 30 with a failed invoice. -/
theorem c10_invoice_failure_still_resets_witness :
    handle_message none dbAwaitAmount 2 (some 30) 50
      = (deletePending dbAwaitAmount ⟨2, "deposit", ⟨some "await_amount", none⟩⟩,
         ⟨["Failed to create invoice. Please try again or contact @goatflow517."], []⟩) :=
  (c10_invoice_failure_still_resets dbAwaitAmount 2 50 30
    ⟨2, "deposit", ⟨some "await_amount", none⟩⟩
    (by with_unfolding_all decide) (by decide) (by decide)).1

/-- C8: a `confirmed` or `partially_paid` IPN whose order id has a numeric
portion before the first underscore credits that user's balance by the
estimated amount even when no Deposit row with that order id exists; the
deposit-status update is silently skipped (the Deposit table comes back
unchanged) and the route answers 200, not a not-found error. -/
theorem c8_ipn_credits_without_deposit (credits : Rat) (db : DB) (data : IpnData)
    (uid : Nat) (oid : String)
    (hstatus : data.paymentStatus = some "confirmed" ∨ data.paymentStatus = some "partially_paid")
    (hoid : data.orderId = some oid)
    (hparse : parseUserId oid = some uid)
    (hnodep : ∀ d ∈ db.deposits, d.orderId ≠ oid)
    (hbal : 0 ≤ (ensureUser db uid).1.balance)
    (hcred : 0 ≤ credits) :
    (payment_webhook credits true db (some data)).1 = 200 ∧
    findUser (payment_webhook credits true db (some data)).2 uid
      = some { (ensureUser db uid).1 with balance := (ensureUser db uid).1.balance + credits } ∧
    (payment_webhook credits true db (some data)).2.deposits = db.deposits := by
  have hub := update_balance_ok db uid credits (add_nonneg hbal hcred)
  have hmem : ∃ v ∈ (ensureUser db uid).2.users, v.id = uid :=
    ⟨(ensureUser db uid).1, ensureUser_mem db uid, ensureUser_id db uid⟩
  have hfind := findUser_setUser_self (ensureUser db uid).2
    { (ensureUser db uid).1 with balance := (ensureUser db uid).1.balance + credits }
    uid (ensureUser_id db uid) hmem
  have hw : payment_webhook credits true db (some data)
      = (200,
         { setUser (ensureUser db uid).2
             { (ensureUser db uid).1 with balance := (ensureUser db uid).1.balance + credits } with
           deposits := (setUser (ensureUser db uid).2
             { (ensureUser db uid).1 with
               balance := (ensureUser db uid).1.balance + credits }).deposits.map
             (fun d => if d.orderId == oid then { d with status := "completed", amount := credits }
               else d) }) := by
    unfold payment_webhook
    rcases hstatus with hst | hst <;> simp +decide [hst, hoid, hparse, hub]
  rw [hw]
  refine ⟨rfl, hfind, ?_⟩
  show ((ensureUser db uid).2.deposits.map
    (fun d => if d.orderId == oid then { d with status := "completed", amount := credits } else d))
      = db.deposits
  rw [ensureUser_deposits db uid]
  exact deposits_map_noop db.deposits oid credits hnodep

/-- Witness for C8: the spec's scenario order "42_1700000000" with an
estimated conversion of 60 credits, against a state holding no Deposit
row at all. -/
theorem c8_ipn_credits_without_deposit_witness :
    (payment_webhook 60 true dbEmpty (some ipn42)).1 = 200 ∧
    findUser (payment_webhook 60 true dbEmpty (some ipn42)).2 42
      = some { (ensureUser dbEmpty 42).1 with balance := (ensureUser dbEmpty 42).1.balance + 60 } ∧
    (payment_webhook 60 true dbEmpty (some ipn42)).2.deposits = dbEmpty.deposits :=
  c8_ipn_credits_without_deposit 60 dbEmpty ipn42 42 "42_1700000000"
    (Or.inl rfl) rfl (by with_unfolding_all decide) (by simp [dbEmpty])
    (by with_unfolding_all decide) (by decide)

/-- C9: a purchase confirmation that completes delivery (filename and
content decryption succeed, the file is on disk, transmission and removal
succeed) deletes the Product row from the store and removes its backing
file, sends the document exactly once, and a subsequent purchase attempt
for the same product id yields the "Product not found." outcome. -/
theorem c9_purchase_deletes_product (env : DeliveryEnv) (db : DB) (chatId pid ts : Nat)
    (pending : PendingActionRec) (product : ProductRec) (fname plain : String)
    (fc : String × String)
    (hpend : db.pendings.find? (fun p => p.userId == chatId && p.actionType == "purchase")
      = some pending)
    (hdata : pending.data.productId = some pid)
    (hprod : db.products.find? (fun p => p.id == pid) = some product)
    (hbal : ¬ (ensureUser db chatId).1.balance < product.price)
    (hdec : env.decName product.filename = some fname)
    (hfile : db.files.find? (fun f => f.1 == fname) = some fc)
    (hcont : env.decContent fc.2 = some plain)
    (hsend : env.sendOk = true)
    (hrem : env.removeOk = true) :
    (handleConfirm env db chatId pid ts).1.products.find? (fun p => p.id == pid) = none ∧
    (handleConfirm env db chatId pid ts).1.files.find? (fun f => f.1 == fname) = none ∧
    (handleConfirm env db chatId pid ts).2.docs = [fname] ∧
    (handleBuy (handleConfirm env db chatId pid ts).1 chatId pid).2
      = ⟨["Product not found."], []⟩ := by
  have hub : update_balance (ensureUser db chatId).2 chatId (-product.price)
      = Except.ok (setUser (ensureUser db chatId).2
          { (ensureUser db chatId).1 with
            balance := (ensureUser db chatId).1.balance + -product.price }) := by
    have h0 : 0 ≤ (ensureUser (ensureUser db chatId).2 chatId).1.balance + -product.price := by
      rw [ensureUser_idem db chatId, ← sub_eq_add_neg]
      exact sub_nonneg.mpr (not_lt.mp hbal)
    have h1 := update_balance_ok (ensureUser db chatId).2 chatId (-product.price) h0
    rw [ensureUser_idem db chatId] at h1
    exact h1
  unfold handleConfirm
  rw [hpend]
  simp only [hdata, bne_self_eq_false, Bool.false_eq_true, if_false, get_balance,
    ensureUser_products, hprod, hbal, hub, hdec, ensureUser_files, setUser_files, hfile,
    hcont, hsend, hrem, Bool.not_true, setUser_products, ite_true, if_true]
  refine ⟨?_, ?_, ?_, ?_⟩
  · exact find?_filter_ne_none _ (fun p : ProductRec => p.id) pid
  · exact find?_filter_ne_none _ (fun f : String × String => f.1) fname
  · trivial
  · unfold handleBuy
    simp only [get_balance, ensureUser_products, deletePending_products]
    rw [find?_filter_ne_none _ (fun p : ProductRec => p.id) pid]

/-- Witness for C9: user 1 confirms product 5 in `dbReadyPurchase` with
every delivery step succeeding. -/
theorem c9_purchase_deletes_product_witness :
    (handleConfirm envAllOk dbReadyPurchase 1 5 77).1.products.find? (fun p => p.id == 5)
      = none ∧
    (handleConfirm envAllOk dbReadyPurchase 1 5 77).1.files.find? (fun f => f.1 == "fullz_1.txt")
      = none ∧
    (handleConfirm envAllOk dbReadyPurchase 1 5 77).2.docs = ["fullz_1.txt"] ∧
    (handleBuy (handleConfirm envAllOk dbReadyPurchase 1 5 77).1 1 5).2
      = ⟨["Product not found."], []⟩ :=
  c9_purchase_deletes_product envAllOk dbReadyPurchase 1 5 77
    ⟨1, "purchase", ⟨none, some 5⟩⟩ ⟨5, "Fullz_1", "enc5", 40, "Fullz", 999⟩
    "fullz_1.txt" "plain" ("fullz_1.txt", "blob")
    (by with_unfolding_all decide) (by decide) (by with_unfolding_all decide)
    (by with_unfolding_all decide) (by with_unfolding_all decide)
    (by with_unfolding_all decide) (by with_unfolding_all decide) rfl rfl

/-- C5, counterexample: the claim says every manual admin credit leaves
every balance non-negative and that no operation assigns the balance field
directly.  The web-admin variant's add-credits view adds the posted amount
by direct field assignment with no sign check: crediting -50 to user 5,
who holds 10, leaves a balance of -40 < 0. -/
theorem c5_admin_credit_drives_balance_negative :
    ((addCredits webDbUserFive 5 (-50)).users.find? (fun u => u.id == 5)).map UserRec.balance
      = some (-40) ∧
    ¬ (0 : Rat) ≤ -40 := by
  with_unfolding_all decide

/-- C5, amended: within the bot application (src/main.py) every
balance-touching operation leaves every user's balance non-negative:
`update_balance` refuses — returning the "Balance cannot be negative"
error, which makes the enclosing session roll back — any adjustment that
would make a balance negative, and the payment-webhook credit, the
purchase flows, the deposit flow, the Telegram-webhook upsert and the
admin panel's manual deposit (which checks its amount is positive before
incrementing the balance field directly) all preserve the invariant.  The
standalone web-admin variant's add-credits view is the exception recorded
in the counterexample. -/
theorem c5_bot_core_preserves_nonneg_balances :
    (∀ db uid amt, (ensureUser db uid).1.balance + amt < 0 →
      update_balance db uid amt = Except.error "Balance cannot be negative") ∧
    (∀ db uid amt db', update_balance db uid amt = Except.ok db' →
      balancesNonneg db → balancesNonneg db') ∧
    (∀ credits sendOk db data?, balancesNonneg db →
      balancesNonneg (payment_webhook credits sendOk db data?).2) ∧
    (∀ env db chatId pid ts, balancesNonneg db →
      balancesNonneg (handleConfirm env db chatId pid ts).1) ∧
    (∀ db chatId pid, balancesNonneg db → balancesNonneg (handleBuy db chatId pid).1) ∧
    (∀ invoice db chatId amt? ts, balancesNonneg db →
      balancesNonneg (handle_message invoice db chatId amt? ts).1) ∧
    (∀ cfg db req upd?, balancesNonneg db →
      balancesNonneg (telegram_webhook cfg db req upd?).2.1) ∧
    (∀ db uid amt ts, balancesNonneg db → balancesNonneg (adminDeposit db uid amt ts).1) := by
  refine ⟨?_, ?_, ?_, ?_, ?_, ?_, ?_, ?_⟩
  · intro db uid amt hneg
    unfold update_balance
    rw [if_pos hneg]
  · intro db uid amt db' hok h
    exact balancesNonneg_update_balance db uid amt db' hok h
  · intro credits sendOk db data? h
    exact balancesNonneg_payment credits sendOk db data? h
  · intro env db chatId pid ts h
    exact balancesNonneg_handleConfirm env db chatId pid ts h
  · intro db chatId pid h
    exact balancesNonneg_handleBuy db chatId pid h
  · intro invoice db chatId amt? ts h
    exact balancesNonneg_handle_message invoice db chatId amt? ts h
  · intro cfg db req upd? h
    exact balancesNonneg_telegram cfg db req upd? h
  · intro db uid amt ts h
    exact balancesNonneg_adminDeposit db uid amt ts h

/-- Witness for C5's amended theorem: the refusal of a negative-making
adjustment and the preservation of the invariant by a concrete manual
deposit and a concrete payment credit. -/
theorem c5_bot_core_preserves_nonneg_balances_witness :
    update_balance dbUserThree 3 (-7) = Except.error "Balance cannot be negative" ∧
    balancesNonneg (adminDeposit dbUserThree 3 7 0).1 ∧
    balancesNonneg (payment_webhook 60 true dbEmpty (some ipn42)).2 :=
  ⟨c5_bot_core_preserves_nonneg_balances.1 dbUserThree 3 (-7) (by with_unfolding_all decide),
   c5_bot_core_preserves_nonneg_balances.2.2.2.2.2.2.2 dbUserThree 3 7 0
     (by with_unfolding_all decide),
   c5_bot_core_preserves_nonneg_balances.2.2.1 60 true dbEmpty (some ipn42)
     (by with_unfolding_all decide)⟩

end NitroBot
